import Mathlib

/-!
Verification development for the `ivt_anywhere2` integration.

The definitions below are a shallow embedding of the Python sources:
`custom_components/ivt_anywhere2/api.py` (OAuth token manager),
`custom_components/ivt_anywhere2/util.py` (metrics extractor helpers) and
`custom_components/ivt_anywhere2/coordinator.py` (electricity derivation and
the bulk retry heuristic).  Machine floats are modelled as rationals (all the
numeric claims involve exactly representable values), wall-clock time is an
explicit rational parameter, the aiohttp exchange is an explicit response
value, and the persistence callback is a function `String → Bool` whose
result records whether the callback raises.
-/

namespace IVT

/-! ## Python `str.strip()` -/

/-- Characters removed by `str.strip()` are whitespace; we model the set by
`Char.isWhitespace`. -/
def pyWs (c : Char) : Bool := c.isWhitespace

/-- Strip whitespace from both ends of a character list, the semantics of
Python's `str.strip()`. -/
def stripChars (l : List Char) : List Char :=
  ((l.dropWhile pyWs).reverse.dropWhile pyWs).reverse

/-- Embedding of Python `s.strip()`. -/
def pyStrip (s : String) : String := ⟨stripChars s.data⟩

theorem dropWhile_head_false (p : Char → Bool) (l : List Char) :
    l.dropWhile p = [] ∨
      ∃ a t, l.dropWhile p = a :: t ∧ p a = false := by
  induction l with
  | nil => exact Or.inl rfl
  | cons a l ih =>
    by_cases h : p a
    · simpa [List.dropWhile, h] using ih
    · exact Or.inr ⟨a, l, by simp [List.dropWhile, h], by simpa using h⟩

theorem dropWhile_of_head_false (p : Char → Bool) (l : List Char)
    (h : ∀ a t, l = a :: t → p a = false) : l.dropWhile p = l := by
  cases l with
  | nil => rfl
  | cons a t => simp [List.dropWhile, h a t rfl]

theorem dropWhile_self_of_dropWhile (p : Char → Bool) (l : List Char) :
    (l.dropWhile p).dropWhile p = l.dropWhile p := by
  rcases dropWhile_head_false p l with h | ⟨a, t, h, hf⟩
  · rw [h]; rfl
  · rw [h]; simp [List.dropWhile, hf]

/-- `str.strip()` is idempotent. -/
theorem stripChars_idem (l : List Char) :
    stripChars (stripChars l) = stripChars l := by
  unfold stripChars
  obtain ⟨A, hA⟩ : ∃ A, l.dropWhile pyWs = A := ⟨_, rfl⟩
  obtain ⟨B, hB⟩ : ∃ B, A.reverse.dropWhile pyWs = B := ⟨_, rfl⟩
  rw [hA, hB]
  -- head of `B.reverse` (if any) is the head of `A`, which is not whitespace
  have h1 : B.reverse.dropWhile pyWs = B.reverse := by
    apply dropWhile_of_head_false
    intro a t hat
    have hw : A.reverse.takeWhile pyWs ++ B = A.reverse := by
      rw [← hB]; exact List.takeWhile_append_dropWhile pyWs A.reverse
    have hA2 : A = B.reverse ++ (A.reverse.takeWhile pyWs).reverse := by
      have := congrArg List.reverse hw
      simpa [List.reverse_append] using this.symm
    have hAcons : ∃ s, A = a :: s := by
      refine ⟨t ++ (A.reverse.takeWhile pyWs).reverse, ?_⟩
      conv_lhs => rw [hA2]
      rw [hat]; simp
    obtain ⟨s, hs⟩ := hAcons
    rcases dropWhile_head_false pyWs l with h0 | ⟨b, u, hbu, hbf⟩
    · rw [hA] at h0; rw [h0] at hs; simp at hs
    · rw [hA] at hbu; rw [hbu] at hs
      injection hs with hba _
      exact hba ▸ hbf
  -- head of `B` (if any) is not whitespace, since `B` is a `dropWhile`
  have h2 : B.dropWhile pyWs = B := by
    rw [← hB]; exact dropWhile_self_of_dropWhile pyWs A.reverse
  rw [h1, List.reverse_reverse, h2]

/-- Idempotence lifted to strings. -/
theorem pyStrip_idem (s : String) : pyStrip (pyStrip s) = pyStrip s := by
  unfold pyStrip
  exact congrArg String.mk (stripChars_idem s.data)

/-! ## Token manager (`api.py`) -/

/-- `Tokens` dataclass (`api.py` lines 21-28). -/
structure Tokens where
  access_token : String
  refresh_token : String
  expires_at : ℚ
deriving DecidableEq

/-- `Tokens.expired` (`api.py` line 27-28): `time.time() >= expires_at - 60`,
with the current time an explicit parameter. -/
def Tokens.expired (t : Tokens) (now : ℚ) : Bool :=
  decide (now ≥ t.expires_at - 60)

/-- The mutable fields of `PointtApi` touched by `_ensure_tokens`:
`self._tokens` and `self._refresh_token_seed`. -/
structure ApiState where
  tokens : Option Tokens
  refresh_token_seed : String
deriving DecidableEq

/-- JSON body of a 2xx token-endpoint response: `access_token`,
optional `refresh_token`, optional `expires_in`. -/
structure TokenResponseJson where
  access_token : Option String
  refresh_token : Option String
  expires_in : Option ℚ
deriving DecidableEq

/-- One exchange with the token endpoint: HTTP status, body text (used in the
error message) and the parsed JSON body. -/
structure RefreshResp where
  status : Nat
  text : String
  js : TokenResponseJson
deriving DecidableEq

/-- Exceptions `_ensure_tokens` can raise: the `RuntimeError` on HTTP >= 400,
the `KeyError` from `js["access_token"]`, and propagation of an exception
raised by the persistence callback. -/
inductive EnsureError where
  | httpError (status : Nat) (text : String)
  | missingAccessToken
  | callbackError (token : String)
deriving DecidableEq

/-- Result of one `_ensure_tokens` run: the returned tokens or the raised
exception, the state of the two mutable fields afterwards, the arguments of
the persistence-callback invocations in order, and the number of POSTs sent
to the token endpoint. -/
structure EnsureResult where
  outcome : Except EnsureError Tokens
  state : ApiState
  cbCalls : List String
  exchanges : Nat

/-- `api.py` lines 61-65: the refresh token used for the request is the
stored tokens' refresh token when tokens exist, else the seed, stripped. -/
def requestRefreshToken (st : ApiState) : String :=
  pyStrip (match st.tokens with
    | some t => t.refresh_token
    | none => st.refresh_token_seed)

/-- `api.py` line 113: `(js.get("refresh_token") or rt).strip()` — Python
`or` falls back on `None` and on the empty string. -/
def parsedRefreshToken (rt : String) (js : TokenResponseJson) : String :=
  pyStrip (match js.refresh_token with
    | none => rt
    | some s => if s = "" then rt else s)

/-- The refresh-exchange path of `_ensure_tokens` (`api.py` lines 61-139),
entered when no valid token is stored.  `cb` is `self._on_refresh_token`
(the `Bool` it returns records whether the callback raises); `now2` is the
`time.time()` of line 131. -/
def refreshExchange (st : ApiState) (cb : Option (String → Bool))
    (now2 : ℚ) (resp : RefreshResp) : EnsureResult :=
  if 400 ≤ resp.status then
    ⟨.error (.httpError resp.status resp.text), st, [], 1⟩
  else
    match resp.js.access_token with
    | none => ⟨.error .missingAccessToken, st, [], 1⟩
    | some access =>
      let rt := requestRefreshToken st
      let refresh := parsedRefreshToken rt resp.js
      let expires_in := resp.js.expires_in.getD 3600
      let newTokens : Tokens := ⟨access, refresh, now2 + expires_in⟩
      if refresh ≠ st.refresh_token_seed then
        match cb with
        | some f =>
          if f refresh then
            ⟨.error (.callbackError refresh), ⟨st.tokens, refresh⟩, [refresh], 1⟩
          else
            ⟨.ok newTokens, ⟨some newTokens, refresh⟩, [refresh], 1⟩
        | none => ⟨.ok newTokens, ⟨some newTokens, refresh⟩, [], 1⟩
      else
        ⟨.ok newTokens, ⟨some newTokens, st.refresh_token_seed⟩, [], 1⟩

/-- `PointtApi._ensure_tokens` (`api.py` lines 55-139).  The body runs under
`self._lock`; this function is the critical section, so a set of concurrent
callers corresponds to sequentially composing it. -/
def ensureTokens (st : ApiState) (cb : Option (String → Bool))
    (now now2 : ℚ) (resp : RefreshResp) : EnsureResult :=
  match st.tokens with
  | some t =>
    if t.expired now then refreshExchange st cb now2 resp
    else ⟨.ok t, st, [], 0⟩
  | none => refreshExchange st cb now2 resp

/-- `PointtApi.__init__` (`api.py` lines 32-51): strip the seed, raise
`ValueError` (modelled as `none`) when it is empty. -/
def initApiState (refresh_token : String) : Option ApiState :=
  let s := pyStrip refresh_token
  if s = "" then none else some ⟨none, s⟩

/-- Whether `_ensure_tokens` takes the refresh path: no stored tokens, or the
stored tokens are expired. -/
def needsRefresh (st : ApiState) (now : ℚ) : Bool :=
  match st.tokens with
  | some t => t.expired now
  | none => true

/-! ## Metrics extractor (`util.py`) -/

/-- `wh_to_kwh` (`util.py` lines 7-8): `float(wh * 10) / 1000.0`. -/
def wh_to_kwh (wh : ℚ) : ℚ := (wh * 10) / 1000

/-- One element of a `recording` list: optional value `y` (watt-hours) and
optional completeness flag `c`. -/
structure Point where
  y : Option ℚ
  c : Option ℚ
deriving DecidableEq

/-- An `EnergyBucketPayload`: a vendor series object whose `recording` key
(defaulted to `[]` when absent or falsy) is a list of points. -/
structure Payload where
  recording : List Point
deriving DecidableEq

/-- `recording_points` (`util.py` lines 10-18): keep points whose
completeness flag (`p.get("c") or 0`) is positive, mapping each to its `y`
value with absent `y` defaulting to `0.0`. -/
def recording_points (payload : Payload) : List ℚ :=
  (payload.recording.filter (fun p => decide (0 < p.c.getD 0))).map
    (fun p => p.y.getD 0)

/-- `sum_kwh` (`util.py` lines 20-23). -/
def sum_kwh (payload : Option Payload) : Option ℚ :=
  match payload with
  | none => none
  | some p => some (((recording_points p).map wh_to_kwh).sum)

/-- `month_total_kwh` (`util.py` lines 96-97). -/
def month_total_kwh (payload : Option Payload) : Option ℚ :=
  sum_kwh payload

/-- `kwh_at_index` (`util.py` lines 74-93): `None` on a missing payload, an
out-of-range index or a missing `y`; otherwise `wh_to_kwh` of the raw `y`. -/
def kwh_at_index (payload : Option Payload) (idx : Int) : Option ℚ :=
  match payload with
  | none => none
  | some p =>
    if idx < 0 ∨ (p.recording.length : Int) ≤ idx then none
    else
      match p.recording.get? idx.toNat with
      | none => none
      | some pt =>
        match pt.y with
        | none => none
        | some y => some (wh_to_kwh y)

/-- `compute_cop` (`util.py` lines 100-103). -/
def compute_cop (heat_kwh elec_kwh : Option ℚ) : Option ℚ :=
  match heat_kwh, elec_kwh with
  | some h, some e => if e ≤ 0 then none else some (h / e)
  | _, _ => none

/-! ## Bulk results (`util.py` `_extract_payload_from_bulk`) -/

/-- The `gatewayResponse` object of one bulk entry. -/
structure GwResp where
  status : Option Int
  payload : Option Payload
deriving DecidableEq

/-- One element of `resourcePaths` in a bulk response. -/
structure Entry where
  resourcePath : String
  gatewayResponse : Option GwResp
deriving DecidableEq

/-- The single root object of a bulk response. -/
structure Root where
  resourcePaths : List Entry
deriving DecidableEq

/-- Python's `needle in haystack` substring test, on character lists. -/
def containsSub (needle : List Char) : List Char → Bool
  | [] => needle.isPrefixOf ([] : List Char)
  | a :: rest => needle.isPrefixOf (a :: rest) || containsSub needle rest

/-- The loop body condition of `_extract_payload_from_bulk`
(`util.py` line 35): `needle in rp and gw.get("status") == 200 and
gw.get("payload") is not None`, with `gw = entry.get("gatewayResponse") or {}`. -/
def entryMatches (needle : String) (e : Entry) : Bool :=
  let gw := e.gatewayResponse.getD ⟨none, none⟩
  containsSub needle.data e.resourcePath.data
    && decide (gw.status = some 200) && decide (gw.payload ≠ none)

/-- The `for` loop of `_extract_payload_from_bulk` (`util.py` lines 32-36):
return the matching entry's payload, else fall through to `None`. -/
def findPayloadLoop (needle : String) : List Entry → Option Payload
  | [] => none
  | e :: rest =>
    if entryMatches needle e then (e.gatewayResponse.getD ⟨none, none⟩).payload
    else findPayloadLoop needle rest

/-- `_extract_payload_from_bulk` (`util.py` lines 26-39).  `bulk_resp[0]` on
an empty list raises `IndexError`, which the surrounding `try` turns into
`None`. -/
def extract_payload_from_bulk (bulk : List Root) (needle : String) :
    Option Payload :=
  match bulk with
  | [] => none
  | root :: _ => findPayloadLoop needle root.resourcePaths

/-- Modelled from the spec: "scans the single root's `resourcePaths` for the
first entry whose `resourcePath` contains `path_fragment`, whose
`gatewayResponse.status == 200`, and whose `payload` is non-null; returns
that payload, else absent". -/
def extract_payload_spec (bulk : List Root) (needle : String) :
    Option Payload :=
  bulk.head?.bind fun root =>
    (root.resourcePaths.find? (entryMatches needle)).bind fun e =>
      (e.gatewayResponse.getD ⟨none, none⟩).payload

/-! ## Coordinator (`coordinator.py`) -/

/-- The electricity derivation (`coordinator.py` lines 108-110 for the last
hour and, identically, lines 119-121 for the month): `None` unless at least
one operand is present, else the sum with `comp or 0.0` / `eh or 0.0`.
Python `or` and `Option.getD` agree here because the fallback is `0.0`. -/
def derive_electricity (comp eh : Option ℚ) : Option ℚ :=
  if comp.isSome || eh.isSome then some (comp.getD 0 + eh.getD 0) else none

/-- Whether one bulk entry's payload is nullish
(`coordinator.py` line 83): `(e.get("gatewayResponse") or {}).get("payload")
is None`. -/
def payloadIsNone (e : Entry) : Bool :=
  decide ((e.gatewayResponse.getD ⟨none, none⟩).payload = none)

/-- The bookkeeping of `_bulk_with_retry` (`coordinator.py` lines 80-89),
deciding whether to retry.  `none` models the `except Exception` arm: in the
typed model the only raising operation is `r[0]` on an empty response list
(`IndexError`). -/
def retryBookkeeping (r : List Root) : Option Bool :=
  match r with
  | [] => none
  | root :: _ =>
    some (!root.resourcePaths.isEmpty
      && root.resourcePaths.all payloadIsNone)

/-- `_bulk_with_retry` (`coordinator.py` lines 77-90) given the first
response `r1` and the response `r2` a second `api.bulk` call would return:
retry (and use `r2`) exactly when the bookkeeping finds a non-empty,
all-null entry list; on a bookkeeping exception fall back to `r1`. -/
def bulkWithRetry (r1 r2 : List Root) : List Root :=
  match retryBookkeeping r1 with
  | none => r1
  | some true => r2
  | some false => r1

/-! ## Local-time target hour (`util.py` `last_complete_hour_target`) -/

/-- A civil calendar date (proleptic Gregorian, as `datetime.date`). -/
structure Date where
  year : Nat
  month : Nat
  day : Nat
deriving DecidableEq

def isLeapYear (y : Nat) : Bool :=
  (y % 4 = 0 && y % 100 ≠ 0) || y % 400 = 0

def daysInMonth (y m : Nat) : Nat :=
  if m = 2 then (if isLeapYear y then 29 else 28)
  else if m = 4 ∨ m = 6 ∨ m = 9 ∨ m = 11 then 30
  else 31

/-- The previous calendar day, the semantics of
`date.fromordinal(d.toordinal() - 1)`. -/
def prevDate (d : Date) : Date :=
  if 1 < d.day then ⟨d.year, d.month, d.day - 1⟩
  else if 1 < d.month then ⟨d.year, d.month - 1, daysInMonth d.year (d.month - 1)⟩
  else ⟨d.year - 1, 12, 31⟩

/-- A timezone-aware `datetime` viewed as civil (wall-clock) time in its
zone; seconds and microseconds are dropped as `last_complete_hour_target`
zeroes them anyway. -/
structure CivilDT where
  date : Date
  hour : Nat
  minute : Nat
deriving DecidableEq

/-- `now.replace(minute=0, second=0, microsecond=0)`. -/
def truncToHour (t : CivilDT) : CivilDT := ⟨t.date, t.hour, 0⟩

/-- Subtraction of `timedelta(hours=1)` on an aware `datetime` is wall-clock
arithmetic: borrow one calendar day when the hour is 0. -/
def subOneHour (t : CivilDT) : CivilDT :=
  if t.hour = 0 then ⟨prevDate t.date, 23, t.minute⟩
  else ⟨t.date, t.hour - 1, t.minute⟩

/-- Zero-padded two-digit field of `strftime`. -/
def pad2 (n : Nat) : String :=
  if n < 10 then "0" ++ toString n else toString n

/-- Zero-padded four-digit year of `strftime("%Y")`. -/
def pad4 (n : Nat) : String :=
  if n < 10 then "000" ++ toString n
  else if n < 100 then "00" ++ toString n
  else if n < 1000 then "0" ++ toString n
  else toString n

/-- `target.strftime("%Y-%m-%d")`. -/
def dateStr (d : Date) : String :=
  pad4 d.year ++ "-" ++ pad2 d.month ++ "-" ++ pad2 d.day

/-- `last_complete_hour_target` (`util.py` lines 53-71) on an aware
datetime: truncate to the hour, subtract one hour, and return
`(day_str, idx, label)`. -/
def last_complete_hour_target (now : CivilDT) : String × Nat × String :=
  let target := subOneHour (truncToHour now)
  let day_str := dateStr target.date
  let idx := target.hour
  (day_str, idx, day_str ++ " " ++ pad2 idx ++ ":00")

/-! ## Claim C5 -/

/-- Sample payload: a 19-point recording whose point at index 18 has
`y == 2500`. -/
def payloadC5 : Payload := ⟨List.replicate 19 ⟨some 2500, some 1⟩⟩

/-- Claim C5 counterexample: `wh_to_kwh` does not divide by 1000 (it
multiplies by 10 first), and on a payload whose `recording[18].y == 2500`
the hour-index lookup does not return `2.5`. -/
theorem claim_C5_counterexample :
    wh_to_kwh 2500 ≠ 2500 / 1000
    ∧ kwh_at_index (some payloadC5) 18 ≠ some (5 / 2) := by
  constructor
  · norm_num [wh_to_kwh]
  · have h : kwh_at_index (some payloadC5) 18 = some (wh_to_kwh 2500) := rfl
    rw [h]
    simp only [ne_eq, Option.some.injEq]
    norm_num [wh_to_kwh]

/-- Claim C5 (amended): `wh_to_kwh` multiplies its watt-hour input by 10 and
divides by 1000; consequently, for every payload whose recording list at
index `idx` holds a point with non-null value field `y`,
`kwh_at_index(payload, idx)` returns `y * 10 / 1000` — in particular, with
`recording[18].y == 2500` it returns `25` — and on a 24-length recording
index 30 is out of bounds, so the result is absent. -/
theorem claim_C5 :
    (∀ wh : ℚ, wh_to_kwh wh = wh * 10 / 1000)
    ∧ (∀ (p : Payload) (idx : Int) (pt : Point) (y : ℚ),
        0 ≤ idx → idx < (p.recording.length : Int) →
        p.recording.get? idx.toNat = some pt → pt.y = some y →
        kwh_at_index (some p) idx = some (y * 10 / 1000))
    ∧ kwh_at_index (some payloadC5) 18 = some 25
    ∧ (∀ p : Payload, p.recording.length = 24 → kwh_at_index (some p) 30 = none) := by
  refine ⟨fun wh => rfl, ?_, ?_, ?_⟩
  · intro p idx pt y h0 hlt hget hy
    have hrange : ¬ (idx < 0 ∨ (p.recording.length : Int) ≤ idx) := by
      push_neg
      exact ⟨by omega, by omega⟩
    simp only [kwh_at_index, hrange, if_false, hget, hy]
    rfl
  · have h : kwh_at_index (some payloadC5) 18 = some (wh_to_kwh 2500) := rfl
    rw [h]
    norm_num [wh_to_kwh]
  · intro p hlen
    have hrange : (30 : Int) < 0 ∨ (p.recording.length : Int) ≤ 30 := by
      right; rw [hlen]; norm_num
    simp only [kwh_at_index]
    rw [if_pos hrange]

/-- Claim C5 witness: the general in-bounds clause of `claim_C5` evaluated
at a one-point recording with `y = 2000`. -/
theorem claim_C5_witness :
    kwh_at_index (some ⟨[⟨some 2000, none⟩]⟩) 0 = some (2000 * 10 / 1000) :=
  claim_C5.2.1 ⟨[⟨some 2000, none⟩]⟩ 0 ⟨some 2000, none⟩ 2000
    (by norm_num) (by norm_num) rfl rfl

/-! ## Claim C6 -/

/-- Claim C6: `last_complete_hour_target` returns `now` truncated to the
hour minus one hour: at local `2024-03-10 00:15` it returns the previous
calendar day with hour index 23, at `19:34` the same day with index 18, and
in general a local-midnight hour rolls the target day back one calendar day
while any other hour keeps the day and decrements the hour. -/
theorem claim_C6 :
    last_complete_hour_target ⟨⟨2024, 3, 10⟩, 0, 15⟩
      = ("2024-03-09", 23, "2024-03-09 23:00")
    ∧ last_complete_hour_target ⟨⟨2024, 3, 10⟩, 19, 34⟩
      = ("2024-03-10", 18, "2024-03-10 18:00")
    ∧ (∀ t : CivilDT,
        (t.hour = 0 →
          (last_complete_hour_target t).1 = dateStr (prevDate t.date)
          ∧ (last_complete_hour_target t).2.1 = 23)
        ∧ (0 < t.hour →
          (last_complete_hour_target t).1 = dateStr t.date
          ∧ (last_complete_hour_target t).2.1 = t.hour - 1)) := by
  refine ⟨by decide, by decide, ?_⟩
  intro t
  constructor
  · intro h0
    simp [last_complete_hour_target, subOneHour, truncToHour, h0]
  · intro hpos
    have h0 : t.hour ≠ 0 := Nat.pos_iff_ne_zero.mp hpos
    simp [last_complete_hour_target, subOneHour, truncToHour, h0]

/-- Claim C6 witness: the general rollover clause of `claim_C6` evaluated at
local midnight `2025-01-01 00:05`, crossing both a month and a year
boundary. -/
theorem claim_C6_witness :
    (last_complete_hour_target ⟨⟨2025, 1, 1⟩, 0, 5⟩).1
      = dateStr (prevDate ⟨2025, 1, 1⟩)
    ∧ (last_complete_hour_target ⟨⟨2025, 1, 1⟩, 0, 5⟩).2.1 = 23 :=
  (claim_C6.2.2 ⟨⟨2025, 1, 1⟩, 0, 5⟩).1 rfl

/-! ## Claim C7 -/

/-- Claim C7: the derived electricity total is absent when both the
compressor and e-heater figures are absent, and otherwise equals their sum
with an absent operand treated as 0 — in particular compressor 5 with
e-heater absent yields electricity 5.  The same derivation is used for the
hourly and the monthly totals. -/
theorem claim_C7 :
    derive_electricity none none = none
    ∧ (∀ c : ℚ, derive_electricity (some c) none = some c)
    ∧ (∀ e : ℚ, derive_electricity none (some e) = some e)
    ∧ (∀ c e : ℚ, derive_electricity (some c) (some e) = some (c + e))
    ∧ derive_electricity (some 5) none = some 5 := by
  refine ⟨rfl, fun c => ?_, fun e => ?_, fun c e => ?_, ?_⟩
  · simp [derive_electricity]
  · simp [derive_electricity]
  · simp [derive_electricity]
  · simp [derive_electricity]

/-! ## Claim C8 -/

theorem findPayloadLoop_eq_find (needle : String) (es : List Entry) :
    findPayloadLoop needle es
      = (es.find? (entryMatches needle)).bind
          (fun e => (e.gatewayResponse.getD ⟨none, none⟩).payload) := by
  induction es with
  | nil => rfl
  | cons e rest ih =>
    by_cases h : entryMatches needle e
    · simp [findPayloadLoop, h, List.find?_cons_of_pos]
    · simp only [findPayloadLoop, if_neg h]
      rw [List.find?_cons_of_neg _ (by simpa using h)]
      exact ih

/-- Sample bulk response whose only entry matches the needle with
`status == 200` but a null payload. -/
def bulkC8 : List Root :=
  [⟨[⟨"/recordings/x/energyMonitoring/compressor?interval=2024-03-09",
      some ⟨some 200, none⟩⟩]⟩]

/-- Claim C8: `_extract_payload_from_bulk` returns the payload of the first
entry of the single root whose `resourcePath` contains the fragment, whose
`gatewayResponse.status == 200`, and whose `payload` is non-null, and
returns absent otherwise (absent also on an empty root list); in particular
a matching entry whose `status == 200` but whose payload is null yields
absent.  The function is total by construction. -/
theorem claim_C8 :
    (∀ (bulk : List Root) (needle : String),
        extract_payload_from_bulk bulk needle = extract_payload_spec bulk needle)
    ∧ extract_payload_from_bulk bulkC8 "/energyMonitoring/compressor?interval=" = none
    ∧ (∀ needle : String, extract_payload_from_bulk [] needle = none) := by
  refine ⟨?_, by decide, fun needle => rfl⟩
  intro bulk needle
  cases bulk with
  | nil => rfl
  | cons root rest =>
    simp [extract_payload_from_bulk, extract_payload_spec,
      findPayloadLoop_eq_find]

/-! ## Claim C9 -/

/-- First bulk response for the C9 counterexample: one root whose
`resourcePaths` list is empty, so that *every* entry (vacuously) has a null
payload. -/
def bulkC9first : List Root := [⟨[]⟩]

/-- Second (would-be retried) bulk response for the C9 counterexample,
carrying real data. -/
def bulkC9second : List Root :=
  [⟨[⟨"/energyMonitoring/compressor?interval=2024-03-09",
      some ⟨some 200, some ⟨[⟨some 2500, some 1⟩]⟩⟩⟩]⟩]

/-- Claim C9 counterexample: in the first response every entry (vacuously)
has a null payload, yet the code does not retry — it returns the first
response, not the retried one, because the retry condition also requires the
entry list to be non-empty (`if entries and nullish == len(entries)`). -/
theorem claim_C9_counterexample :
    (∀ e : Entry, e ∈ (bulkC9first.head?.elim [] Root.resourcePaths) →
        payloadIsNone e = true)
    ∧ bulkWithRetry bulkC9first bulkC9second = bulkC9first
    ∧ bulkC9first ≠ bulkC9second := by
  refine ⟨?_, by decide, by decide⟩
  intro e he
  simp [bulkC9first] at he

/-- Claim C9 (amended): if the first bulk response has a *non-empty* entry
list in which every entry's payload is null, the bulk call is retried
exactly once and the retried response is used (with an empty entry list no
retry occurs); if at least one payload is non-null the first response is
kept; and if the retry heuristic's own bookkeeping raises (in the typed
model: indexing an empty response list), the original response is returned
instead of failing the poll. -/
theorem claim_C9 :
    (∀ (root : Root) (rest r2 : List Root),
        root.resourcePaths ≠ [] →
        root.resourcePaths.all payloadIsNone = true →
        bulkWithRetry (root :: rest) r2 = r2)
    ∧ (∀ (root : Root) (rest r2 : List Root),
        root.resourcePaths.all payloadIsNone = false →
        bulkWithRetry (root :: rest) r2 = root :: rest)
    ∧ (∀ r2 : List Root, bulkWithRetry [] r2 = []) := by
  refine ⟨?_, ?_, fun r2 => rfl⟩
  · intro root rest r2 hne hall
    have hempty : root.resourcePaths.isEmpty = false := by
      cases h : root.resourcePaths with
      | nil => exact absurd h hne
      | cons a l => rfl
    simp [bulkWithRetry, retryBookkeeping, hempty, hall]
  · intro root rest r2 hall
    simp [bulkWithRetry, retryBookkeeping, hall]

/-- Claim C9 witness: the retry clause of `claim_C9` at a concrete all-null
response, and the fallback clause at the empty response. -/
theorem claim_C9_witness :
    bulkWithRetry [⟨[⟨"p", some ⟨some 200, none⟩⟩]⟩] bulkC9second = bulkC9second :=
  claim_C9.1 ⟨[⟨"p", some ⟨some 200, none⟩⟩]⟩ [] bulkC9second
    (by decide) (by decide)

/-! ## Token manager helper lemmas -/

theorem refreshExchange_exchanges (st : ApiState) (cb : Option (String → Bool))
    (now2 : ℚ) (resp : RefreshResp) :
    (refreshExchange st cb now2 resp).exchanges = 1 := by
  simp only [refreshExchange]
  split
  · rfl
  · split
    · rfl
    · split
      · split
        · split <;> rfl
        · rfl
      · rfl

theorem Tokens.expired_iff (t : Tokens) (now : ℚ) :
    t.expired now = true ↔ t.expires_at ≤ now + 60 := by
  simp only [Tokens.expired, decide_eq_true_eq, ge_iff_le]
  constructor <;> intro h <;> linarith

theorem ensureTokens_ok_state (st : ApiState) (cb : Option (String → Bool))
    (now now2 : ℚ) (resp : RefreshResp) (t : Tokens)
    (h : (ensureTokens st cb now now2 resp).outcome = .ok t) :
    (ensureTokens st cb now now2 resp).state.tokens = some t := by
  revert h
  simp only [ensureTokens, refreshExchange]
  split
  · split
    · split
      · intro h; simp at h
      · split
        · intro h; simp at h
        · split
          · split
            · split
              · intro h; simp at h
              · intro h
                simp only [Except.ok.injEq] at h
                simp [h]
            · intro h
              simp only [Except.ok.injEq] at h
              simp [h]
          · intro h
            simp only [Except.ok.injEq] at h
            simp [h]
    · intro h
      simp only [Except.ok.injEq] at h
      subst h
      assumption
  · split
    · intro h; simp at h
    · split
      · intro h; simp at h
      · split
        · split
          · split
            · intro h; simp at h
            · intro h
              simp only [Except.ok.injEq] at h
              simp [h]
          · intro h
            simp only [Except.ok.injEq] at h
            simp [h]
        · intro h
          simp only [Except.ok.injEq] at h
          simp [h]

/-! ## Claim C3 -/

/-- Claim C3: `_ensure_tokens` performs a refresh exchange if and only if no
token is stored or the stored token's expiry instant is in the past or at
most 60 seconds in the future (`time.time() >= expires_at - 60`); when the
expiry is more than 60 seconds away it returns the stored token unchanged
with no network call. -/
theorem claim_C3 :
    ∀ (st : ApiState) (cb : Option (String → Bool)) (now now2 : ℚ)
      (resp : RefreshResp),
      (st.tokens = none → (ensureTokens st cb now now2 resp).exchanges = 1)
      ∧ (∀ t : Tokens, st.tokens = some t →
          ((ensureTokens st cb now now2 resp).exchanges = 1
            ↔ t.expires_at ≤ now + 60)
          ∧ (now + 60 < t.expires_at →
              ensureTokens st cb now now2 resp = ⟨.ok t, st, [], 0⟩)) := by
  intro st cb now now2 resp
  constructor
  · intro hnone
    simp only [ensureTokens, hnone]
    exact refreshExchange_exchanges st cb now2 resp
  · intro t ht
    have hexp := Tokens.expired_iff t now
    constructor
    · constructor
      · intro hx
        by_cases h : t.expired now = true
        · exact hexp.mp h
        · exfalso
          simp only [ensureTokens, ht, if_neg h] at hx
          simp at hx
      · intro hle
        simp only [ensureTokens, ht, if_pos (hexp.mpr hle)]
        exact refreshExchange_exchanges st cb now2 resp
    · intro hgt
      have h : ¬ (t.expired now = true) := by
        rw [hexp]; intro hc; linarith
      simp only [ensureTokens, ht, if_neg h]

/-- Sample stored token for the C3 witness: expiry 1000 seconds after the
epoch of the run. -/
def tokensC3 : Tokens := ⟨"acc", "A", 1000⟩

/-- Claim C3 witness: with the stored token 1000 seconds from expiry at
`now = 0`, the call returns it unchanged with zero exchanges. -/
theorem claim_C3_witness :
    ensureTokens ⟨some tokensC3, "A"⟩ none 0 0 ⟨200, "", ⟨some "acc", none, none⟩⟩
      = ⟨.ok tokensC3, ⟨some tokensC3, "A"⟩, [], 0⟩ :=
  ((claim_C3 ⟨some tokensC3, "A"⟩ none 0 0 ⟨200, "", ⟨some "acc", none, none⟩⟩).2
    tokensC3 rfl).2 (by norm_num [tokensC3])

/-! ## Claim C4 -/

/-- Claim C4: a refresh attempt that fails — HTTP status ≥ 400 or a 2xx
response body lacking `access_token` — raises and leaves both mutable
fields (`_tokens` and `_refresh_token_seed`) exactly as they were; no
partial mutation occurs and the callback does not fire. -/
theorem claim_C4 :
    ∀ (st : ApiState) (cb : Option (String → Bool)) (now now2 : ℚ)
      (resp : RefreshResp),
      needsRefresh st now = true →
      (400 ≤ resp.status ∨ resp.js.access_token = none) →
      (ensureTokens st cb now now2 resp).state = st
      ∧ (ensureTokens st cb now now2 resp).cbCalls = []
      ∧ (ensureTokens st cb now now2 resp).outcome
          = .error (if 400 ≤ resp.status
              then .httpError resp.status resp.text
              else .missingAccessToken) := by
  intro st cb now now2 resp href hfail
  have hrun : ensureTokens st cb now now2 resp = refreshExchange st cb now2 resp := by
    simp only [ensureTokens]
    cases hst : st.tokens with
    | none => rfl
    | some t =>
      simp only [needsRefresh, hst] at href
      simp [href]
  rw [hrun]
  by_cases h4 : 400 ≤ resp.status
  · simp [refreshExchange, h4]
  · rcases hfail with h | hacc
    · exact absurd h h4
    · simp [refreshExchange, h4, hacc]

/-- Claim C4 witness: a 401 response with body `denied` leaves the state
untouched and surfaces the HTTP error. -/
theorem claim_C4_witness :
    (ensureTokens ⟨none, "A"⟩ none 0 0 ⟨401, "denied", ⟨none, none, none⟩⟩).state
      = ⟨none, "A"⟩
    ∧ (ensureTokens ⟨none, "A"⟩ none 0 0 ⟨401, "denied", ⟨none, none, none⟩⟩).cbCalls
      = []
    ∧ (ensureTokens ⟨none, "A"⟩ none 0 0 ⟨401, "denied", ⟨none, none, none⟩⟩).outcome
      = .error (if 400 ≤ (⟨401, "denied", ⟨none, none, none⟩⟩ : RefreshResp).status
          then .httpError (401 : Nat) "denied"
          else .missingAccessToken) :=
  claim_C4 ⟨none, "A"⟩ none 0 0 ⟨401, "denied", ⟨none, none, none⟩⟩ rfl
    (Or.inl (by norm_num))

/-! ## More token manager helper lemmas -/

theorem ensureTokens_eq_refresh (st : ApiState) (cb : Option (String → Bool))
    (now now2 : ℚ) (resp : RefreshResp)
    (href : needsRefresh st now = true) :
    ensureTokens st cb now now2 resp = refreshExchange st cb now2 resp := by
  simp only [ensureTokens]
  cases hst : st.tokens with
  | none => rfl
  | some t =>
    simp only [needsRefresh, hst] at href
    simp [href]

theorem ensureTokens_cached (st : ApiState) (cb : Option (String → Bool))
    (now now2 : ℚ) (resp : RefreshResp) (t0 : Tokens)
    (h1 : st.tokens = some t0) (h2 : t0.expired now = false) :
    ensureTokens st cb now now2 resp = ⟨.ok t0, st, [], 0⟩ := by
  simp only [ensureTokens, h1]
  rw [if_neg (by simp [h2])]

theorem refreshExchange_rotation (st : ApiState) (cb : Option (String → Bool))
    (now2 : ℚ) (resp : RefreshResp) (a : String)
    (h4 : ¬ 400 ≤ resp.status) (hacc : resp.js.access_token = some a) :
    (parsedRefreshToken (requestRefreshToken st) resp.js
        ≠ st.refresh_token_seed →
      (refreshExchange st cb now2 resp).cbCalls
        = (match cb with
            | some _ => [parsedRefreshToken (requestRefreshToken st) resp.js]
            | none => [])
      ∧ (refreshExchange st cb now2 resp).state.refresh_token_seed
        = parsedRefreshToken (requestRefreshToken st) resp.js)
    ∧ (parsedRefreshToken (requestRefreshToken st) resp.js
        = st.refresh_token_seed →
      (refreshExchange st cb now2 resp).cbCalls = []
      ∧ (refreshExchange st cb now2 resp).state.refresh_token_seed
        = st.refresh_token_seed) := by
  constructor
  · intro hne
    simp only [refreshExchange, if_neg h4, hacc]
    rw [if_pos hne]
    cases cb with
    | none => exact ⟨rfl, rfl⟩
    | some f =>
      by_cases hf : f (parsedRefreshToken (requestRefreshToken st) resp.js)
      · simp [hf]
      · simp [hf]
  · intro heq
    simp only [refreshExchange, if_neg h4, hacc]
    rw [if_neg (by simp [heq])]
    exact ⟨rfl, rfl⟩

theorem refreshExchange_ok_fields (st : ApiState)
    (cb : Option (String → Bool)) (now2 : ℚ) (resp : RefreshResp)
    (t' : Tokens)
    (h : (refreshExchange st cb now2 resp).outcome = .ok t') :
    (refreshExchange st cb now2 resp).state.tokens = some t'
    ∧ t'.refresh_token
        = (refreshExchange st cb now2 resp).state.refresh_token_seed
    ∧ ((refreshExchange st cb now2 resp).state.refresh_token_seed
          = st.refresh_token_seed
        ∨ (refreshExchange st cb now2 resp).state.refresh_token_seed
          = parsedRefreshToken (requestRefreshToken st) resp.js) := by
  revert h
  simp only [refreshExchange]
  split
  · intro h; simp at h
  · split
    · intro h; simp at h
    · split
      · split
        · split
          · intro h; simp at h
          · intro h
            simp only [Except.ok.injEq] at h
            subst h
            exact ⟨rfl, rfl, Or.inr rfl⟩
        · intro h
          simp only [Except.ok.injEq] at h
          subst h
          exact ⟨rfl, rfl, Or.inr rfl⟩
      · intro h
        simp only [Except.ok.injEq] at h
        subst h
        rename_i hrot
        rw [not_not] at hrot
        exact ⟨rfl, hrot, Or.inl rfl⟩

/-! ## Claim C2 -/

/-- First-caller state for the C2 counterexample: no stored tokens, seed
`"A"`. -/
def stC2 : ApiState := ⟨none, "A"⟩

/-- Token-endpoint response for the C2 counterexample: success, but the new
access token is granted with `expires_in = 30`, inside the 60-second safety
margin. -/
def respC2 : RefreshResp := ⟨200, "", ⟨some "acc", none, some 30⟩⟩

/-- Claim C2 counterexample: two callers serialized by the lock, both at
time 0.  The first refresh succeeds with `expires_in = 30`; the waiting
caller then finds the fresh token already inside the 60-second expiry
margin and performs its own exchange, so two network exchanges are sent for
one set of concurrent calls. -/
theorem claim_C2_counterexample :
    (ensureTokens stC2 none 0 0 respC2).exchanges
      + (ensureTokens (ensureTokens stC2 none 0 0 respC2).state
            none 0 0 respC2).exchanges = 2 := by
  have h1 : ensureTokens stC2 none 0 0 respC2
      = ⟨.ok ⟨"acc", "A", 30⟩, ⟨some ⟨"acc", "A", 30⟩, "A"⟩, [], 1⟩ := by
    simp [ensureTokens, refreshExchange, stC2, respC2, requestRefreshToken,
      parsedRefreshToken, pyStrip, stripChars, pyWs]
  rw [h1]
  have h2 : (⟨"acc", "A", 30⟩ : Tokens).expired 0 = true := by
    simp [Tokens.expired]
    norm_num
  rw [ensureTokens_eq_refresh _ _ _ _ _ (by simp [needsRefresh, h2])]
  rw [refreshExchange_exchanges]

/-- Claim C2 (amended): under the lock-serialized semantics of
`_ensure_tokens`, a caller that waits while another caller's refresh
completes successfully performs no exchange of its own and returns the very
same token, provided it re-checks while the refreshed token is still more
than 60 seconds from expiry; with a refresh response whose `expires_in` is
at most 60 the waiting caller starts a second exchange
(`claim_C2_counterexample`). -/
theorem claim_C2 :
    ∀ (st : ApiState) (cb : Option (String → Bool)) (now1 now1' : ℚ)
      (resp1 : RefreshResp) (t : Tokens) (cb2 : Option (String → Bool))
      (now2 now2' : ℚ) (resp2 : RefreshResp),
      (ensureTokens st cb now1 now1' resp1).outcome = .ok t →
      now2 < t.expires_at - 60 →
      ensureTokens (ensureTokens st cb now1 now1' resp1).state cb2 now2 now2' resp2
        = ⟨.ok t, (ensureTokens st cb now1 now1' resp1).state, [], 0⟩ := by
  intro st cb now1 now1' resp1 t cb2 now2 now2' resp2 hok hfresh
  have htok := ensureTokens_ok_state st cb now1 now1' resp1 t hok
  have hexp : t.expired now2 = false := by
    simp only [Tokens.expired, decide_eq_false_iff_not, ge_iff_le, not_le]
    linarith
  exact ensureTokens_cached _ cb2 now2 now2' resp2 t htok hexp

/-- Token-endpoint response for the C2 witness: success with the default
one-hour lifetime. -/
def respC2w : RefreshResp := ⟨200, "", ⟨some "acc", none, some 3600⟩⟩

/-- Claim C2 witness: after a successful refresh at time 0 with
`expires_in = 3600`, a second serialized caller at time 10 performs no
exchange and observes the same token. -/
theorem claim_C2_witness :
    ensureTokens (ensureTokens stC2 none 0 0 respC2w).state none 10 10 respC2w
      = ⟨.ok ⟨"acc", "A", 3600⟩,
          (ensureTokens stC2 none 0 0 respC2w).state, [], 0⟩ :=
  claim_C2 stC2 none 0 0 respC2w ⟨"acc", "A", 3600⟩ none 10 10 respC2w
    (by
      simp [ensureTokens, refreshExchange, stC2, respC2w, requestRefreshToken,
        parsedRefreshToken, pyStrip, stripChars, pyWs])
    (by norm_num)

/-! ## Claim C1 -/

/-- Starting state for the C1 counterexample: an expired stored token whose
refresh token `"A"` equals the seed. -/
def stC1 : ApiState := ⟨some ⟨"at", "A", 0⟩, "A"⟩

/-- First response for the C1 counterexample: a rotation to `"B"`. -/
def respC1a : RefreshResp := ⟨200, "", ⟨some "at2", some "B", some 3600⟩⟩

/-- Second response for the C1 counterexample: successful, with the
`refresh_token` field absent. -/
def respC1b : RefreshResp := ⟨200, "", ⟨some "at3", none, some 3600⟩⟩

/-- Claim C1 counterexample: after a refresh in which the callback raised
while persisting the rotation to `"B"` (leaving the stored token's refresh
token `"A"` different from the seed `"B"`), a successful refresh exchange
whose response carries *no* `refresh_token` still invokes the persistence
callback — with the very token `"A"` that was used in the request — because
the code compares the response token against the seed, not against the
token used for the request. -/
theorem claim_C1_counterexample :
    respC1b.js.refresh_token = none
    ∧ (ensureTokens (ensureTokens stC1 (some fun _ => true) 100 100 respC1a).state
        (some fun _ => false) 100 100 respC1b).cbCalls = ["A"]
    ∧ (ensureTokens (ensureTokens stC1 (some fun _ => true) 100 100 respC1a).state
        (some fun _ => false) 100 100 respC1b).outcome
      = .ok ⟨"at3", "A", 3700⟩ := by
  have h1 : (ensureTokens stC1 (some fun _ => true) 100 100 respC1a).state
      = ⟨some ⟨"at", "A", 0⟩, "B"⟩ := by
    simp [ensureTokens, refreshExchange, stC1, respC1a, requestRefreshToken,
      parsedRefreshToken, pyStrip, stripChars, pyWs, Tokens.expired]
    norm_num
  rw [h1]
  refine ⟨rfl, ?_, ?_⟩
  · simp [ensureTokens, refreshExchange, respC1b, requestRefreshToken,
      parsedRefreshToken, pyStrip, stripChars, pyWs, Tokens.expired]
    norm_num
  · simp [ensureTokens, refreshExchange, respC1b, requestRefreshToken,
      parsedRefreshToken, pyStrip, stripChars, pyWs, Tokens.expired]
    norm_num

/-- Claim C1 (amended): for every successful refresh exchange performed from
a state in which the refresh token used for the request equals the in-memory
seed (true initially and re-established by every successfully completed
refresh, `claim_C10`): if the parsed refresh token of the response differs
from the seed, the persistence callback is invoked exactly once with the new
value and the in-memory seed equals that new value afterward, even when the
callback itself raises; if the parsed token equals the seed — in particular
whenever the response's `refresh_token` is absent or identical to the
request's token — the callback is never invoked. -/
theorem claim_C1 :
    ∀ (st : ApiState) (f : String → Bool) (now now2 : ℚ) (resp : RefreshResp)
      (a : String),
      requestRefreshToken st = st.refresh_token_seed →
      resp.status < 400 →
      resp.js.access_token = some a →
      needsRefresh st now = true →
      ((parsedRefreshToken st.refresh_token_seed resp.js
          ≠ st.refresh_token_seed →
        (ensureTokens st (some f) now now2 resp).cbCalls
          = [parsedRefreshToken st.refresh_token_seed resp.js]
        ∧ (ensureTokens st (some f) now now2 resp).state.refresh_token_seed
          = parsedRefreshToken st.refresh_token_seed resp.js)
      ∧ (parsedRefreshToken st.refresh_token_seed resp.js
          = st.refresh_token_seed →
        (ensureTokens st (some f) now now2 resp).cbCalls = [])
      ∧ ((resp.js.refresh_token = none
            ∨ resp.js.refresh_token = some (requestRefreshToken st)) →
        (ensureTokens st (some f) now now2 resp).cbCalls = [])) := by
  intro st f now now2 resp a hreq hstat hacc href
  have h4 : ¬ 400 ≤ resp.status := by omega
  have hrun := ensureTokens_eq_refresh st (some f) now now2 resp href
  have hrot := refreshExchange_rotation st (some f) now2 resp a h4 hacc
  rw [hreq] at hrot
  have hidem : pyStrip st.refresh_token_seed = st.refresh_token_seed := by
    have h0 : requestRefreshToken st
        = pyStrip (match st.tokens with
            | some t => t.refresh_token
            | none => st.refresh_token_seed) := rfl
    rw [← hreq, h0]
    exact pyStrip_idem _
  refine ⟨?_, ?_, ?_⟩
  · intro hne
    obtain ⟨hc, hsd⟩ := hrot.1 hne
    rw [hrun]
    exact ⟨hc, hsd⟩
  · intro heq
    rw [hrun]
    exact (hrot.2 heq).1
  · intro habs
    have heq : parsedRefreshToken st.refresh_token_seed resp.js
        = st.refresh_token_seed := by
      rcases habs with h | h
      · simp only [parsedRefreshToken, h]
        exact hidem
      · rw [hreq] at h
        simp only [parsedRefreshToken, h]
        by_cases hz : st.refresh_token_seed = ""
        · rw [if_pos hz]; exact hidem
        · rw [if_neg hz]; exact hidem
    rw [hrun]
    exact (hrot.2 heq).1

/-- Response for the C1 witness: a rotation to `"B"`, persisted by a
callback that raises. -/
def respC1w : RefreshResp := ⟨200, "", ⟨some "acc", some "B", some 3600⟩⟩

/-- Claim C1 witness: from the fresh state with seed `"A"`, a response
rotating to `"B"` invokes the (raising) callback exactly once with `"B"`,
and the in-memory seed equals `"B"` afterward. -/
theorem claim_C1_witness :
    (ensureTokens ⟨none, "A"⟩ (some fun _ => true) 0 0 respC1w).cbCalls = ["B"]
    ∧ (ensureTokens ⟨none, "A"⟩ (some fun _ => true) 0 0 respC1w).state.refresh_token_seed
      = "B" := by
  have h := (claim_C1 ⟨none, "A"⟩ (fun _ => true) 0 0 respC1w "acc"
    (by decide) (by norm_num [respC1w]) rfl rfl).1 (by decide)
  have hp : parsedRefreshToken "A" respC1w.js = "B" := by decide
  rw [hp] at h
  exact h

/-! ## Claim C10 -/

/-- The invariant relating the stored `TokenState` to the refresh-token
seed: any stored token's refresh token equals the seed, and the seed is a
`strip` fixed point. -/
def TokenInv (st : ApiState) : Prop :=
  (∀ t, st.tokens = some t → t.refresh_token = st.refresh_token_seed)
  ∧ pyStrip st.refresh_token_seed = st.refresh_token_seed

/-- Claim C10: after every successfully completed refresh exchange the
stored token's refresh token equals the in-memory seed; `TokenInv` holds
initially (from `__init__`), implies that the token sent in a refresh
request is exactly the seed, is preserved by every successful run, and
makes the code's rotation check (response token vs seed) coincide with a
comparison against the token actually used in the request. -/
theorem claim_C10 :
    ∀ (st : ApiState) (cb : Option (String → Bool)) (now now2 : ℚ)
      (resp : RefreshResp),
      (∀ t', (ensureTokens st cb now now2 resp).outcome = .ok t' →
          (ensureTokens st cb now now2 resp).exchanges = 1 →
          (ensureTokens st cb now now2 resp).state.tokens = some t'
          ∧ t'.refresh_token
            = (ensureTokens st cb now now2 resp).state.refresh_token_seed)
      ∧ (TokenInv st → requestRefreshToken st = st.refresh_token_seed)
      ∧ (TokenInv st → ∀ t',
          (ensureTokens st cb now now2 resp).outcome = .ok t' →
          TokenInv (ensureTokens st cb now now2 resp).state)
      ∧ (TokenInv st →
          (parsedRefreshToken (requestRefreshToken st) resp.js
              ≠ st.refresh_token_seed
            ↔ parsedRefreshToken (requestRefreshToken st) resp.js
              ≠ requestRefreshToken st))
      ∧ (∀ s st0, initApiState s = some st0 → TokenInv st0) := by
  intro st cb now now2 resp
  have hparsed_fix : ∀ rt, pyStrip (parsedRefreshToken rt resp.js)
      = parsedRefreshToken rt resp.js := by
    intro rt
    have h0 : parsedRefreshToken rt resp.js
        = pyStrip (match resp.js.refresh_token with
            | none => rt
            | some s => if s = "" then rt else s) := rfl
    rw [h0]
    exact pyStrip_idem _
  have hreq_of_inv : TokenInv st → requestRefreshToken st = st.refresh_token_seed := by
    intro hinv
    cases hst : st.tokens with
    | none =>
      simp only [requestRefreshToken, hst]
      exact hinv.2
    | some t =>
      simp only [requestRefreshToken, hst]
      rw [hinv.1 t hst]
      exact hinv.2
  refine ⟨?_, hreq_of_inv, ?_, ?_, ?_⟩
  · intro t' hok hexch
    by_cases href : needsRefresh st now = true
    · rw [ensureTokens_eq_refresh st cb now now2 resp href] at hok ⊢
      obtain ⟨h1, h2, _⟩ := refreshExchange_ok_fields st cb now2 resp t' hok
      exact ⟨h1, h2⟩
    · exfalso
      cases hst : st.tokens with
      | none => simp [needsRefresh, hst] at href
      | some t0 =>
        have hexp : t0.expired now = false := by
          simp only [needsRefresh, hst] at href
          simpa using href
        rw [ensureTokens_cached st cb now now2 resp t0 hst hexp] at hexch
        simp at hexch
  · intro hinv t' hok
    by_cases href : needsRefresh st now = true
    · rw [ensureTokens_eq_refresh st cb now now2 resp href] at hok ⊢
      obtain ⟨h1, h2, h3⟩ := refreshExchange_ok_fields st cb now2 resp t' hok
      constructor
      · intro u hu
        rw [h1] at hu
        injection hu with hu
        rw [← hu]
        exact h2
      · rcases h3 with h | h
        · rw [h]; exact hinv.2
        · rw [h]; exact hparsed_fix _
    · cases hst : st.tokens with
      | none => simp [needsRefresh, hst] at href
      | some t0 =>
        have hexp : t0.expired now = false := by
          simp only [needsRefresh, hst] at href
          simpa using href
        rw [ensureTokens_cached st cb now now2 resp t0 hst hexp]
        exact hinv
  · intro hinv
    rw [hreq_of_inv hinv]
  · intro s st0 hinit
    simp only [initApiState] at hinit
    by_cases hz : pyStrip s = ""
    · rw [if_pos hz] at hinit; cases hinit
    · rw [if_neg hz] at hinit
      injection hinit with hinit
      rw [← hinit]
      constructor
      · intro t ht; cases ht
      · exact pyStrip_idem s

/-- Claim C10 witness: a successful rotating refresh from the fresh seed
`"A"` stores the token with refresh token `"B"` and leaves the seed equal
to it. -/
theorem claim_C10_witness :
    (ensureTokens ⟨none, "A"⟩ none 0 0 respC1w).state.tokens
      = some ⟨"acc", "B", 3600⟩
    ∧ (⟨"acc", "B", 3600⟩ : Tokens).refresh_token
      = (ensureTokens ⟨none, "A"⟩ none 0 0 respC1w).state.refresh_token_seed :=
  (claim_C10 ⟨none, "A"⟩ none 0 0 respC1w).1 ⟨"acc", "B", 3600⟩
    (by
      simp [ensureTokens, refreshExchange, respC1w, requestRefreshToken,
        parsedRefreshToken, pyStrip, stripChars, pyWs])
    (by
      simp [ensureTokens, refreshExchange, respC1w, requestRefreshToken,
        parsedRefreshToken, pyStrip, stripChars, pyWs])

end IVT
